import Mathlib

/-!
Shallow embedding of `main_pretrain.py` (ST-MEM pre-training driver).

The driver has two functions:
* `parse` reads a YAML config file and merges the command-line arguments
  into it with a "falsy skip" rule (`if v: config[k] = v`);
* `main(config)` builds the dataset/dataloader, creates the output
  directory and log writer on the main process, checks the model name,
  derives the learning rate from the effective batch size, builds the
  optimizer and loss scaler, loads a checkpoint, runs the epoch loop
  (training, periodic checkpointing, log writing), and finally saves the
  encoder.

External collaborators (`models.__dict__`, `misc.is_main_process`,
`misc.get_world_size`, `train_one_epoch`, ...) are parameters of the
embedding (`Env`).  `main`'s observable behaviour is modelled as the
sequence of side-effect events it performs plus its outcome and the final
configuration value.
-/

/-! ### The command-line merge (`parse`, lines 33-68) -/

/-- A Python value as it appears in the merged config dict: the argparse
values are strings except `start_epoch`, which is an int. -/
inductive PyVal where
  | str (s : String)
  | int (n : ℤ)
  deriving DecidableEq, Repr

/-- Python truthiness for the values that flow through the merge loop:
an empty string and the integer 0 are falsy. -/
def truthy : PyVal → Bool
  | .str s => s ≠ ""
  | .int n => n ≠ 0

/-- The argparse namespace of `parse` (lines 36-59): five fields with
defaults `""` resp. `0`. -/
structure Args where
  config_path : String
  output_dir : String
  exp_name : String
  resume : String
  start_epoch : ℤ
  deriving DecidableEq, Repr

/-- `vars(args).items()` in insertion order (lines 36-59). -/
def argItems (a : Args) : List (String × PyVal) :=
  [("config_path", .str a.config_path),
   ("output_dir", .str a.output_dir),
   ("exp_name", .str a.exp_name),
   ("resume", .str a.resume),
   ("start_epoch", .int a.start_epoch)]

/-- Python dict assignment `d[k] = v` on an association list: replace the
first binding of `k` if present, else append. -/
def setKey : List (String × PyVal) → String → PyVal → List (String × PyVal)
  | [], k, v => [(k, v)]
  | (k', v') :: rest, k, v =>
      if k' = k then (k, v) :: rest else (k', v') :: setKey rest k v

/-- Python dict lookup `d.get(k)` on an association list. -/
def lookupKey : List (String × PyVal) → String → Option PyVal
  | [], _ => none
  | (k', v') :: rest, k => if k' = k then some v' else lookupKey rest k

/-- The merge loop of `parse` (lines 64-66):
`for k, v in vars(args).items(): if v: config[k] = v`. -/
def parse (fileConfig : List (String × PyVal)) (a : Args) :
    List (String × PyVal) :=
  (argItems a).foldl
    (fun c kv => if truthy kv.2 then setKey c kv.1 kv.2 else c) fileConfig

/-! ### The configuration consumed by `main` -/

/-- `config['ddp']` fields read by `main`. -/
structure DdpSettings where
  distributed : Bool
  gpu : ℕ
  deriving DecidableEq, Repr

/-- `config['dataloader']` fields read by `main`. -/
structure DataloaderSettings where
  batch_size : ℕ
  deriving DecidableEq, Repr

/-- `config['train']` fields read by `main`.  `lr` may be `None`
(modelled as `Option`); learning rates are exact rationals. -/
structure TrainSettings where
  lr : Option ℚ
  blr : ℚ
  accum_iter : ℕ
  epochs : ℕ
  deriving DecidableEq, Repr

/-- The configuration mapping passed into `main`, with the entries `main`
reads. -/
structure Config where
  ddp : DdpSettings
  device : String
  seed : ℤ
  model_name : String
  output_dir : String
  exp_name : String
  resume : String
  start_epoch : ℕ
  dataloader : DataloaderSettings
  train : TrainSettings
  deriving DecidableEq, Repr

/-! ### External collaborators of `main` -/

/-- The external collaborators `main` consumes, resolved per process:
the distributed topology (`misc.is_main_process`, `misc.get_world_size`),
the model registry membership test (`model_name in models.__dict__`),
the per-epoch statistics returned by `train_one_epoch`, and the epoch
index stored in a checkpoint a resume path points at. -/
structure Env where
  isMain : Bool
  worldSize : ℕ
  supported : String → Bool
  trainStats : ℕ → List (String × ℚ)
  ckptEpoch : ℕ

/-! ### Observable behaviour of `main` -/

/-- A scalar in a structured log record: metric values are rationals,
the epoch index is an integer. -/
inductive JsonVal where
  | num (q : ℚ)
  | nat (n : ℕ)
  deriving DecidableEq, Repr

/-- A side effect performed by `main`, in program order. -/
inductive Event where
  | buildDataset
  | buildDataloader
  | mkOutputDir (path : String)
  | mkLogWriter (path : String)
  | buildModel (name : String)
  | wrapDDP
  | mkOptimizer
  | mkLossScaler
  | loadCheckpoint
  | setSamplerEpoch (e : ℕ)
  | trainEpoch (e : ℕ)
  | saveCheckpoint (path : String) (epoch : ℕ)
  | flushWriter
  | appendLog (path : String) (record : List (String × JsonVal))
  | saveEncoder (path : String) (epoch : ℕ)
  deriving DecidableEq, Repr

/-- How `main` terminates: normally, with the `ValueError` of line 138,
or with the `UnboundLocalError` on `epoch` at line 226 when the epoch
loop body never ran. -/
inductive Outcome where
  | ok
  | errUnsupportedModel (name : String)
  | errUnboundLocalEpoch
  deriving DecidableEq, Repr

/-- The observable result of `main`: the events performed before it
returned or raised, the outcome, and the final configuration value. -/
structure RunResult where
  events : List Event
  outcome : Outcome
  config : Config
  deriving Repr

/-! ### The pieces of `main` -/

/-- Modelled from the spec: `util.misc.load_model` (called at line 172)
is not under `src/`.  Per the spec (§4.3 Checkpoint Store), `load`
restores model/optimizer/scaler state from the snapshot and the starting
epoch "is taken from the explicit configuration value, not inferred from
the checkpoint": the configuration, in particular `start_epoch`, is not
overwritten from the checkpoint's stored epoch. -/
def load_model (config : Config) (_storedEpoch : ℕ) : Config := config

/-- Line 147: `eff_batch_size = batch_size * accum_iter * world_size`. -/
def eff_batch_size (config : Config) (world : ℕ) : ℕ :=
  config.dataloader.batch_size * config.train.accum_iter * world

/-- Lines 150-151: if `config['train']['lr'] is None`, write back
`blr * eff_batch_size / 256`; otherwise leave the train settings as they
are. -/
def deriveLr (t : TrainSettings) (eff : ℕ) : TrainSettings :=
  if t.lr = none then { t with lr := some (t.blr * (eff : ℚ) / 256) } else t

/-- Lines 204-206: `{**{f'train_{k}': v for k, v in train_stats.items()},
'epoch': epoch}`, keys in insertion order. -/
def logRecord (stats : List (String × ℚ)) (epoch : ℕ) :
    List (String × JsonVal) :=
  stats.map (fun p => ("train_" ++ p.1, JsonVal.num p.2))
    ++ [("epoch", JsonVal.nat epoch)]

/-- The epoch-loop body, lines 182-213: sampler epoch (distributed only),
one training epoch, the periodic checkpoint save (`output_dir` truthy and
`epoch % 20 == 0 or epoch + 1 == epochs`), and the main-process log
write (flush the writer if present, then append one line to `log.txt`). -/
def epochBody (env : Env) (config : Config) (output_dir : Option String)
    (log_writer : Option String) (epoch : ℕ) : List Event :=
  (if config.ddp.distributed then [Event.setSamplerEpoch epoch] else [])
  ++ [Event.trainEpoch epoch]
  ++ (match output_dir with
      | some d =>
          if epoch % 20 = 0 ∨ epoch + 1 = config.train.epochs then
            [Event.saveCheckpoint
              (d ++ "/checkpoint-" ++ toString epoch ++ ".pth") epoch]
          else []
      | none => [])
  ++ (match output_dir with
      | some d =>
          if env.isMain then
            (if log_writer.isSome then [Event.flushWriter] else [])
            ++ [Event.appendLog (d ++ "/log.txt")
                  (logRecord (env.trainStats epoch) epoch)]
          else []
      | none => [])

/-- The epoch loop, line 181: `for epoch in range(start_epoch, epochs)`,
written with an explicit count `n = epochs - start_epoch` of remaining
iterations. -/
def runEpochs (env : Env) (config : Config) (output_dir : Option String)
    (log_writer : Option String) : ℕ → ℕ → List Event
  | _, 0 => []
  | e, n + 1 =>
      epochBody env config output_dir log_writer e
        ++ runEpochs env config output_dir log_writer (e + 1) n

/-- The body of `main` (lines 71-232) as a trace function.  In program
order: dataset and dataloader construction (116-121); output directory
and log writer on the main process when `config['output_dir']` is truthy
(124-130); the model-registry check raising `ValueError` (133-138);
learning-rate derivation (147-151); DDP wrapping (160-163); optimizer,
loss scaler and checkpoint load (166-172); the epoch loop (181-213); and
encoder extraction (221-227), where the loop variable `epoch` is read
after the loop and is unbound when the loop body never executed. -/
def mainRun (env : Env) (config : Config) : RunResult :=
  let ev1 : List Event := [Event.buildDataset, Event.buildDataloader]
  let odlw : Option String :=
    if env.isMain ∧ config.output_dir ≠ "" then
      some (config.output_dir ++ "/" ++ config.exp_name)
    else none
  let ev2 : List Event :=
    match odlw with
    | some d => [Event.mkOutputDir d, Event.mkLogWriter d]
    | none => []
  if env.supported config.model_name then
    let ev3 : List Event := [Event.buildModel config.model_name]
    let config2 : Config :=
      { config with
          train := deriveLr config.train (eff_batch_size config env.worldSize) }
    let ev4 : List Event :=
      (if config.ddp.distributed then [Event.wrapDDP] else [])
        ++ [Event.mkOptimizer, Event.mkLossScaler, Event.loadCheckpoint]
    let config3 : Config := load_model config2 env.ckptEpoch
    let ev5 : List Event :=
      runEpochs env config3 odlw odlw config3.start_epoch
        (config3.train.epochs - config3.start_epoch)
    match odlw with
    | none => ⟨ev1 ++ ev2 ++ ev3 ++ ev4 ++ ev5, Outcome.ok, config3⟩
    | some d =>
        if config3.start_epoch < config3.train.epochs then
          ⟨ev1 ++ ev2 ++ ev3 ++ ev4 ++ ev5
             ++ [Event.saveEncoder (d ++ "/encoder_fft.pth")
                   (config3.train.epochs - 1)],
           Outcome.ok, config3⟩
        else
          ⟨ev1 ++ ev2 ++ ev3 ++ ev4 ++ ev5,
           Outcome.errUnboundLocalEpoch, config3⟩
  else
    ⟨ev1 ++ ev2, Outcome.errUnsupportedModel config.model_name, config⟩

/-! ### Trace observers -/

/-- The epochs at which a full checkpoint file was saved, in order. -/
def checkpointEpochs (evs : List Event) : List ℕ :=
  evs.filterMap fun e =>
    match e with
    | Event.saveCheckpoint _ n => some n
    | _ => none

/-- The structured log records appended to `log.txt`, in order. -/
def logAppends (evs : List Event) : List (List (String × JsonVal)) :=
  evs.filterMap fun e =>
    match e with
    | Event.appendLog _ r => some r
    | _ => none

/-- The epochs handed to `train_one_epoch`, in order. -/
def trainedEpochs (evs : List Event) : List ℕ :=
  evs.filterMap fun e =>
    match e with
    | Event.trainEpoch n => some n
    | _ => none

/-- Events that write to the output directory or the monitoring stream:
creating the directory or the writer, checkpoint saves, writer flushes,
log appends, and the encoder save. -/
def isWriteEvent : Event → Bool
  | Event.mkOutputDir _ => true
  | Event.mkLogWriter _ => true
  | Event.saveCheckpoint _ _ => true
  | Event.flushWriter => true
  | Event.appendLog _ _ => true
  | Event.saveEncoder _ _ => true
  | _ => false

/-- Events that allocate model-side resources or belong to the training
loop: everything `main` does after the model-registry check. -/
def isPostCheckEvent : Event → Bool
  | Event.buildModel _ => true
  | Event.wrapDDP => true
  | Event.mkOptimizer => true
  | Event.mkLossScaler => true
  | Event.loadCheckpoint => true
  | Event.setSamplerEpoch _ => true
  | Event.trainEpoch _ => true
  | Event.saveCheckpoint _ _ => true
  | Event.flushWriter => true
  | Event.appendLog _ _ => true
  | Event.saveEncoder _ _ => true
  | _ => false

/-- Monitoring-stream flushes and structured-log appends (the two write
sites of lines 209-213). -/
def isMonLogEvent : Event → Bool
  | Event.flushWriter => true
  | Event.appendLog _ _ => true
  | _ => false

/-! ### Concrete instances used to exercise the theorems -/

/-- A concrete single-process main-rank environment with one supported
model name and a one-metric epoch executor. -/
def envW : Env where
  isMain := true
  worldSize := 1
  supported := fun n => n == "st_mem_vit_base_dec256d4b"
  trainStats := fun _ => [("loss", (1 : ℚ))]
  ckptEpoch := 7

/-- A concrete configuration: 45 epochs from epoch 0, output directory
configured, learning rate unset. -/
def cfgW : Config where
  ddp := ⟨false, 0⟩
  device := "cuda"
  seed := 0
  model_name := "st_mem_vit_base_dec256d4b"
  output_dir := "out"
  exp_name := "exp1"
  resume := ""
  start_epoch := 0
  dataloader := ⟨32⟩
  train := ⟨none, 1, 1, 45⟩

/-- `cfgW` with a model name absent from the registry. -/
def cfgBad : Config := { cfgW with model_name := "bogus" }

/-- `cfgW` with only two epochs. -/
def cfg2 : Config := { cfgW with train := { cfgW.train with epochs := 2 } }

/-- `cfgW` with `start_epoch` at the epoch count: the epoch loop body
never executes. -/
def cfgEmpty : Config := { cfgW with start_epoch := 45 }

/-- `cfgW` with an explicitly set learning rate. -/
def cfgLr : Config := { cfgW with train := { cfgW.train with lr := some 3 } }

/-! ### Association-list lemmas for the merge rule -/

lemma lookupKey_setKey (c : List (String × PyVal)) (k k' : String) (v : PyVal) :
    lookupKey (setKey c k v) k' = if k = k' then some v else lookupKey c k' := by
  induction c with
  | nil => simp [setKey, lookupKey]
  | cons hd tl ih =>
      obtain ⟨k0, v0⟩ := hd
      by_cases h0 : k0 = k
      · subst h0
        by_cases h1 : k0 = k' <;> simp [setKey, lookupKey, h1]
      · by_cases h1 : k0 = k'
        · have h2 : k ≠ k' := by
            intro hkk
            exact h0 (h1.trans hkk.symm)
          have h3 : k' ≠ k := fun hkk => h2 hkk.symm
          simp [setKey, lookupKey, h0, h1, h2, h3]
        · simp [setKey, lookupKey, h0, h1, ih]

lemma lookupKey_mergeOne (c : List (String × PyVal)) (k k' : String) (v : PyVal) :
    lookupKey (if truthy v then setKey c k v else c) k' =
      if k = k' ∧ truthy v then some v else lookupKey c k' := by
  by_cases ht : truthy v
  · by_cases h1 : k = k' <;> simp [ht, h1, lookupKey_setKey]
  · simp [ht]

/-! ### Trace-observer lemmas -/

lemma trainedEpochs_append (l1 l2 : List Event) :
    trainedEpochs (l1 ++ l2) = trainedEpochs l1 ++ trainedEpochs l2 := by
  simp [trainedEpochs]

lemma checkpointEpochs_append (l1 l2 : List Event) :
    checkpointEpochs (l1 ++ l2) = checkpointEpochs l1 ++ checkpointEpochs l2 := by
  simp [checkpointEpochs]

lemma logAppends_append (l1 l2 : List Event) :
    logAppends (l1 ++ l2) = logAppends l1 ++ logAppends l2 := by
  simp [logAppends]

lemma trainedEpochs_epochBody (env : Env) (config : Config)
    (od lw : Option String) (e : ℕ) :
    trainedEpochs (epochBody env config od lw e) = [e] := by
  unfold epochBody
  rcases od with _ | d <;> rcases lw with _ | w <;>
    by_cases hd : config.ddp.distributed <;>
    by_cases hm : env.isMain = true <;>
    by_cases hc : e % 20 = 0 ∨ e + 1 = config.train.epochs <;>
    simp [hd, hm, hc, trainedEpochs]

lemma checkpointEpochs_epochBody_none (env : Env) (config : Config)
    (lw : Option String) (e : ℕ) :
    checkpointEpochs (epochBody env config none lw e) = [] := by
  unfold epochBody
  rcases lw with _ | w <;>
    by_cases hd : config.ddp.distributed <;>
    by_cases hm : env.isMain = true <;>
    simp [hd, hm, checkpointEpochs]

lemma checkpointEpochs_epochBody_some (env : Env) (config : Config)
    (d : String) (lw : Option String) (e : ℕ) :
    checkpointEpochs (epochBody env config (some d) lw e) =
      if e % 20 = 0 ∨ e + 1 = config.train.epochs then [e] else [] := by
  unfold epochBody
  rcases lw with _ | w <;>
    by_cases hd : config.ddp.distributed <;>
    by_cases hm : env.isMain = true <;>
    by_cases hc : e % 20 = 0 ∨ e + 1 = config.train.epochs <;>
    simp [hd, hm, hc, checkpointEpochs]

lemma logAppends_epochBody_some (env : Env) (config : Config)
    (d : String) (lw : Option String) (e : ℕ) (hm : env.isMain = true) :
    logAppends (epochBody env config (some d) lw e) =
      [logRecord (env.trainStats e) e] := by
  unfold epochBody
  rcases lw with _ | w <;>
    by_cases hd : config.ddp.distributed <;>
    by_cases hc : e % 20 = 0 ∨ e + 1 = config.train.epochs <;>
    simp [hd, hm, hc, logAppends]

lemma writes_epochBody_none (env : Env) (config : Config)
    (lw : Option String) (e : ℕ) :
    (epochBody env config none lw e).filter isWriteEvent = [] := by
  unfold epochBody
  rcases lw with _ | w <;>
    by_cases hd : config.ddp.distributed <;>
    by_cases hm : env.isMain = true <;>
    simp [hd, hm, isWriteEvent]

lemma trainedEpochs_runEpochs (env : Env) (config : Config)
    (od lw : Option String) :
    ∀ (n e : ℕ),
      trainedEpochs (runEpochs env config od lw e n) = List.range' e n := by
  intro n
  induction n with
  | zero => intro e; rfl
  | succ m ih =>
      intro e
      rw [runEpochs, trainedEpochs_append, trainedEpochs_epochBody, ih,
        List.range'_succ]
      rfl

lemma checkpointEpochs_runEpochs_some (env : Env) (config : Config)
    (d : String) (lw : Option String) :
    ∀ (n e : ℕ),
      checkpointEpochs (runEpochs env config (some d) lw e n) =
        (List.range' e n).filter
          (fun ep => decide (ep % 20 = 0 ∨ ep + 1 = config.train.epochs)) := by
  intro n
  induction n with
  | zero => intro e; rfl
  | succ m ih =>
      intro e
      rw [runEpochs, checkpointEpochs_append, checkpointEpochs_epochBody_some,
        ih, List.range'_succ, List.filter_cons]
      by_cases hc : e % 20 = 0 ∨ e + 1 = config.train.epochs <;> simp [hc]

lemma logAppends_runEpochs_some (env : Env) (config : Config)
    (d : String) (lw : Option String) (hm : env.isMain = true) :
    ∀ (n e : ℕ),
      logAppends (runEpochs env config (some d) lw e n) =
        (List.range' e n).map (fun ep => logRecord (env.trainStats ep) ep) := by
  intro n
  induction n with
  | zero => intro e; rfl
  | succ m ih =>
      intro e
      rw [runEpochs, logAppends_append, logAppends_epochBody_some env config d lw e hm,
        ih, List.range'_succ, List.map_cons]
      rfl

lemma writes_runEpochs_none (env : Env) (config : Config) (lw : Option String) :
    ∀ (n e : ℕ),
      (runEpochs env config none lw e n).filter isWriteEvent = [] := by
  intro n
  induction n with
  | zero => intro e; rfl
  | succ m ih =>
      intro e
      rw [runEpochs, List.filter_append, writes_epochBody_none, ih]
      rfl

/-! ### `deriveLr` field lemmas -/

lemma deriveLr_epochs (t : TrainSettings) (eff : ℕ) :
    (deriveLr t eff).epochs = t.epochs := by
  unfold deriveLr; split <;> rfl

lemma deriveLr_blr (t : TrainSettings) (eff : ℕ) :
    (deriveLr t eff).blr = t.blr := by
  unfold deriveLr; split <;> rfl

lemma deriveLr_accum_iter (t : TrainSettings) (eff : ℕ) :
    (deriveLr t eff).accum_iter = t.accum_iter := by
  unfold deriveLr; split <;> rfl

lemma deriveLr_of_some (t : TrainSettings) (eff : ℕ) (x : ℚ)
    (hx : t.lr = some x) : deriveLr t eff = t := by
  simp [deriveLr, hx]

lemma deriveLr_of_none (t : TrainSettings) (eff : ℕ) (hx : t.lr = none) :
    (deriveLr t eff).lr = some (t.blr * (eff : ℚ) / 256) := by
  simp [deriveLr, hx]

/-! ### `mainRun` reduction lemmas -/

lemma mainRun_config_supported (env : Env) (config : Config)
    (h3 : env.supported config.model_name = true) :
    (mainRun env config).config =
      { config with
          train := deriveLr config.train (eff_batch_size config env.worldSize) } := by
  unfold mainRun
  simp only [h3, load_model, if_true, ite_true]
  split
  · rfl
  · split <;> rfl

lemma mainRun_config_unsupported (env : Env) (config : Config)
    (h3 : env.supported config.model_name = false) :
    (mainRun env config).config = config := by
  unfold mainRun
  simp only [h3, load_model, Bool.false_eq_true, if_false, ite_false]

lemma mainRun_events_main (env : Env) (config : Config)
    (h1 : env.isMain = true) (h2 : config.output_dir ≠ "")
    (h3 : env.supported config.model_name = true) :
    (mainRun env config).events =
      [Event.buildDataset, Event.buildDataloader,
       Event.mkOutputDir (config.output_dir ++ "/" ++ config.exp_name),
       Event.mkLogWriter (config.output_dir ++ "/" ++ config.exp_name),
       Event.buildModel config.model_name]
      ++ (if config.ddp.distributed then [Event.wrapDDP] else [])
      ++ [Event.mkOptimizer, Event.mkLossScaler, Event.loadCheckpoint]
      ++ runEpochs env
           { config with
               train := deriveLr config.train (eff_batch_size config env.worldSize) }
           (some (config.output_dir ++ "/" ++ config.exp_name))
           (some (config.output_dir ++ "/" ++ config.exp_name))
           config.start_epoch (config.train.epochs - config.start_epoch)
      ++ (if config.start_epoch < config.train.epochs then
            [Event.saveEncoder
               (config.output_dir ++ "/" ++ config.exp_name ++ "/encoder_fft.pth")
               (config.train.epochs - 1)]
          else []) := by
  unfold mainRun
  simp only [h1, h2, h3, load_model, deriveLr_epochs, ne_eq, not_false_eq_true,
    and_self, if_true, ite_true]
  split <;> simp [List.append_assoc]

lemma mainRun_events_noOut (env : Env) (config : Config)
    (ho : ¬(env.isMain = true ∧ config.output_dir ≠ ""))
    (h3 : env.supported config.model_name = true) :
    (mainRun env config).events =
      [Event.buildDataset, Event.buildDataloader,
       Event.buildModel config.model_name]
      ++ (if config.ddp.distributed then [Event.wrapDDP] else [])
      ++ [Event.mkOptimizer, Event.mkLossScaler, Event.loadCheckpoint]
      ++ runEpochs env
           { config with
               train := deriveLr config.train (eff_batch_size config env.worldSize) }
           none none
           config.start_epoch (config.train.epochs - config.start_epoch) := by
  unfold mainRun
  simp only [h3, ho, load_model, deriveLr_epochs, if_true, ite_true, if_false,
    ite_false]
  simp [List.append_assoc]

lemma trainedEpochs_mainRun (env : Env) (config : Config)
    (h3 : env.supported config.model_name = true) :
    trainedEpochs (mainRun env config).events =
      List.range' config.start_epoch
        (config.train.epochs - config.start_epoch) := by
  by_cases ho : env.isMain = true ∧ config.output_dir ≠ ""
  · rw [mainRun_events_main env config ho.1 ho.2 h3]
    simp only [trainedEpochs_append, trainedEpochs_runEpochs, deriveLr_epochs,
      apply_ite trainedEpochs]
    simp [trainedEpochs]
  · rw [mainRun_events_noOut env config ho h3]
    simp only [trainedEpochs_append, trainedEpochs_runEpochs, deriveLr_epochs,
      apply_ite trainedEpochs]
    simp [trainedEpochs]

lemma runEpochs_ckptEpoch (env : Env) (k : ℕ) (config : Config)
    (od lw : Option String) :
    ∀ (n e : ℕ),
      runEpochs { env with ckptEpoch := k } config od lw e n =
        runEpochs env config od lw e n := by
  intro n
  induction n with
  | zero => intro e; rfl
  | succ m ih =>
      intro e
      simp only [runEpochs]
      rw [ih]
      rfl

lemma mainRun_ckptEpoch (env : Env) (k : ℕ) (config : Config) :
    mainRun { env with ckptEpoch := k } config = mainRun env config := by
  unfold mainRun
  simp only [load_model, runEpochs_ckptEpoch]

/-! ### Claims -/

/-- Claim C1: with `config.train.lr` unset the derivation step writes back
`blr * (batch_size * accum_iter * world_size) / 256`, and doubling any one
of the three factors doubles the derived learning rate; with `lr` set the
train settings are left unchanged; and after `main`'s derivation step the
train settings are exactly `deriveLr` applied at the effective batch
size. -/
theorem lr_linear_scaling (t : TrainSettings) (b a w : ℕ) :
    (t.lr = none →
      (deriveLr t (b * a * w)).lr = some (t.blr * ((b : ℚ) * a * w) / 256) ∧
      (deriveLr t (2 * b * a * w)).lr =
        some (2 * (t.blr * ((b : ℚ) * a * w) / 256)) ∧
      (deriveLr t (b * (2 * a) * w)).lr =
        some (2 * (t.blr * ((b : ℚ) * a * w) / 256)) ∧
      (deriveLr t (b * a * (2 * w))).lr =
        some (2 * (t.blr * ((b : ℚ) * a * w) / 256))) ∧
    (∀ x : ℚ, t.lr = some x → deriveLr t (b * a * w) = t) ∧
    (∀ (env : Env) (config : Config),
      env.supported config.model_name = true →
      (mainRun env config).config.train =
        deriveLr config.train (eff_batch_size config env.worldSize)) := by
  refine ⟨?_, ?_, ?_⟩
  · intro h
    refine ⟨?_, ?_, ?_, ?_⟩ <;>
      · rw [deriveLr_of_none _ _ h]
        congr 1
        push_cast
        ring
  · intro x hx
    exact deriveLr_of_some _ _ x hx
  · intro env config h
    rw [mainRun_config_supported env config h]

/-- Witness for C1 at concrete inputs: derivation fires when `lr` is
unset and is the identity when `lr` is set. -/
theorem lr_linear_scaling_witness :
    (deriveLr ⟨none, 1, 1, 45⟩ (32 * 1 * 1)).lr =
      some ((1 : ℚ) * ((32 : ℚ) * 1 * 1) / 256) ∧
    deriveLr ⟨some 2, 1, 1, 45⟩ (32 * 1 * 1) = ⟨some 2, 1, 1, 45⟩ :=
  ⟨((lr_linear_scaling ⟨none, 1, 1, 45⟩ 32 1 1).1 rfl).1,
   (lr_linear_scaling ⟨some 2, 1, 1, 45⟩ 32 1 1).2.1 2 rfl⟩

/-- Claim C2: on the main process with an output directory configured,
a run from epoch 0 over `N` epochs saves a full checkpoint exactly at the
epochs `e < N` with `e % 20 = 0` or `e = N - 1`. -/
theorem checkpoint_cadence (env : Env) (config : Config) (N : ℕ)
    (h1 : env.isMain = true) (h2 : config.output_dir ≠ "")
    (h3 : env.supported config.model_name = true)
    (h4 : config.start_epoch = 0) (h5 : config.train.epochs = N) :
    checkpointEpochs (mainRun env config).events =
      (List.range N).filter
        (fun e => decide (e % 20 = 0) || decide (e = N - 1)) := by
  rw [mainRun_events_main env config h1 h2 h3]
  simp only [checkpointEpochs_append, checkpointEpochs_runEpochs_some,
    deriveLr_epochs, apply_ite checkpointEpochs]
  simp [checkpointEpochs, h4, h5, List.range_eq_range']
  apply List.filter_congr
  intro e he
  have hlt : e < N := by
    have := List.mem_range'_1.mp he
    omega
  have hiff : (e + 1 = N) ↔ (e = N - 1) := by omega
  rw [decide_eq_decide.mpr hiff]

/-- Witness for C2: with 45 epochs the checkpoints land exactly at
epochs 0, 20, 40 and 44. -/
theorem checkpoint_cadence_witness :
    checkpointEpochs (mainRun envW cfgW).events = [0, 20, 40, 44] := by
  rw [checkpoint_cadence envW cfgW 45 rfl (by decide) (by decide) rfl rfl]
  decide

/-- Claim C3: a process that is not the main process performs no
checkpoint save, no `log.txt` append, and no monitoring-stream write:
its trace contains no write event at all. -/
theorem nonmain_process_no_writes (env : Env) (config : Config)
    (h : env.isMain = false) :
    (mainRun env config).events.filter isWriteEvent = [] := by
  have ho : ¬(env.isMain = true ∧ config.output_dir ≠ "") := by simp [h]
  by_cases h3 : env.supported config.model_name = true
  · rw [mainRun_events_noOut env config ho h3]
    by_cases hd : config.ddp.distributed <;>
      simp [hd, List.filter_append, writes_runEpochs_none, isWriteEvent]
  · have h3' : env.supported config.model_name = false := by
      simpa using h3
    simp [mainRun, h3', ho, isWriteEvent]

/-- Witness for C3: a concrete non-main process writes nothing. -/
theorem nonmain_process_no_writes_witness :
    (mainRun { envW with isMain := false } cfgW).events.filter isWriteEvent
      = [] :=
  nonmain_process_no_writes { envW with isMain := false } cfgW rfl

/-- Counterexample to C4 as stated: with an unsupported model name the
`ValueError` outcome is reached, yet the dataset and dataloader were
already built and the output directory and log writer were already
created — so the failure does not precede all resource allocation. -/
theorem unsupported_model_allocation_counterexample :
    (mainRun envW cfgBad).outcome = Outcome.errUnsupportedModel "bogus" ∧
    Event.buildDataset ∈ (mainRun envW cfgBad).events ∧
    Event.buildDataloader ∈ (mainRun envW cfgBad).events ∧
    Event.mkOutputDir ("out" ++ "/" ++ "exp1") ∈ (mainRun envW cfgBad).events ∧
    Event.mkLogWriter ("out" ++ "/" ++ "exp1") ∈ (mainRun envW cfgBad).events := by
  decide

/-- Claim C4 (amended): with an unsupported model name, `main` raises the
configuration error before the model is built and before the optimizer or
loss scaler is allocated, and before any training, checkpoint, or log
event — though after dataset/dataloader construction and output-directory
and log-writer creation. -/
theorem unsupported_model_fail_fast (env : Env) (config : Config)
    (h : env.supported config.model_name = false) :
    (mainRun env config).outcome =
      Outcome.errUnsupportedModel config.model_name ∧
    (mainRun env config).events.filter isPostCheckEvent = [] := by
  unfold mainRun
  simp only [h, Bool.false_eq_true, if_false, ite_false]
  constructor
  · trivial
  · split <;> rfl

/-- Witness for C4 (amended) at a concrete unsupported configuration. -/
theorem unsupported_model_fail_fast_witness :
    (mainRun envW cfgBad).outcome =
      Outcome.errUnsupportedModel cfgBad.model_name ∧
    (mainRun envW cfgBad).events.filter isPostCheckEvent = [] :=
  unsupported_model_fail_fast envW cfgBad (by decide)

/-- Claim C5: the command-line merge overrides a config-file key exactly
when the parsed value is truthy; an override of `0` for `start_epoch`
(or an empty string for the string arguments) is silently ignored, while
a truthy override replaces the config-file value. -/
theorem parse_falsy_skip_merge (fc : List (String × PyVal)) (a : Args) :
    (lookupKey (parse fc a) "config_path" =
       if a.config_path = "" then lookupKey fc "config_path"
       else some (PyVal.str a.config_path)) ∧
    (lookupKey (parse fc a) "output_dir" =
       if a.output_dir = "" then lookupKey fc "output_dir"
       else some (PyVal.str a.output_dir)) ∧
    (lookupKey (parse fc a) "exp_name" =
       if a.exp_name = "" then lookupKey fc "exp_name"
       else some (PyVal.str a.exp_name)) ∧
    (lookupKey (parse fc a) "resume" =
       if a.resume = "" then lookupKey fc "resume"
       else some (PyVal.str a.resume)) ∧
    (lookupKey (parse fc a) "start_epoch" =
       if a.start_epoch = 0 then lookupKey fc "start_epoch"
       else some (PyVal.int a.start_epoch)) ∧
    lookupKey (parse [("start_epoch", PyVal.int 5)] ⟨"", "", "", "", 0⟩)
        "start_epoch" = some (PyVal.int 5) ∧
    lookupKey (parse [("start_epoch", PyVal.int 5)] ⟨"", "", "", "", 10⟩)
        "start_epoch" = some (PyVal.int 10) := by
  refine ⟨?_, ?_, ?_, ?_, ?_, by decide, by decide⟩
  · simp only [parse, argItems, List.foldl_cons, List.foldl_nil,
      lookupKey_mergeOne]
    by_cases h : a.config_path = "" <;> simp [truthy, h]
  · simp only [parse, argItems, List.foldl_cons, List.foldl_nil,
      lookupKey_mergeOne]
    by_cases h : a.output_dir = "" <;> simp [truthy, h]
  · simp only [parse, argItems, List.foldl_cons, List.foldl_nil,
      lookupKey_mergeOne]
    by_cases h : a.exp_name = "" <;> simp [truthy, h]
  · simp only [parse, argItems, List.foldl_cons, List.foldl_nil,
      lookupKey_mergeOne]
    by_cases h : a.resume = "" <;> simp [truthy, h]
  · simp only [parse, argItems, List.foldl_cons, List.foldl_nil,
      lookupKey_mergeOne]
    by_cases h : a.start_epoch = 0 <;> simp [truthy, h]

/-- Claim C6: after the checkpoint-load step, the epoch loop starts at
the configuration's `start_epoch` — the first trained epoch is
`config.start_epoch`, and the whole run is unchanged by the checkpoint's
stored epoch. -/
theorem resume_start_epoch_config (env : Env) (config : Config)
    (h3 : env.supported config.model_name = true)
    (h4 : config.start_epoch < config.train.epochs) :
    (trainedEpochs (mainRun env config).events).head? =
      some config.start_epoch ∧
    ∀ k : ℕ, mainRun { env with ckptEpoch := k } config = mainRun env config := by
  constructor
  · rw [trainedEpochs_mainRun env config h3]
    obtain ⟨m, hm⟩ : ∃ m, config.train.epochs - config.start_epoch = m + 1 :=
      ⟨config.train.epochs - config.start_epoch - 1, by omega⟩
    rw [hm, List.range'_succ]
    rfl
  · intro k
    exact mainRun_ckptEpoch env k config

/-- Witness for C6: a concrete run first trains its configured
`start_epoch`. -/
theorem resume_start_epoch_config_witness :
    (trainedEpochs (mainRun envW cfgW).events).head? = some 0 :=
  (resume_start_epoch_config envW cfgW (by decide) (by decide)).1

/-- Claim C7: when the epoch loop body never executes
(`start_epoch ≥ epochs`) on the main process with an output directory
configured, `main` ends with the unbound-local `epoch` error at the
encoder-saving step and no encoder artifact is produced. -/
theorem empty_loop_unbound_epoch (env : Env) (config : Config)
    (h1 : env.isMain = true) (h2 : config.output_dir ≠ "")
    (h3 : env.supported config.model_name = true)
    (h4 : config.train.epochs ≤ config.start_epoch) :
    (mainRun env config).outcome = Outcome.errUnboundLocalEpoch ∧
    ∀ (p : String) (e : ℕ),
      Event.saveEncoder p e ∉ (mainRun env config).events := by
  have hn : config.train.epochs - config.start_epoch = 0 := by omega
  have hlt : ¬ config.start_epoch < config.train.epochs := by omega
  constructor
  · unfold mainRun
    simp only [h1, h2, h3, load_model, ne_eq, not_false_eq_true, and_self,
      if_true, ite_true]
    simp [hlt, deriveLr_epochs]
  · intro p e
    rw [mainRun_events_main env config h1 h2 h3, hn]
    by_cases hd : config.ddp.distributed <;>
      simp [hd, hlt, runEpochs]

/-- Witness for C7: a concrete run whose `start_epoch` equals its epoch
count fails with the unbound-local error. -/
theorem empty_loop_unbound_epoch_witness :
    (mainRun envW cfgEmpty).outcome = Outcome.errUnboundLocalEpoch :=
  (empty_loop_unbound_epoch envW cfgEmpty rfl (by decide) (by decide)
    (by decide)).1

/-- Claim C8: a main-process run with an output directory over epochs
`0..n-1` appends exactly `n` structured log lines, the record of epoch
`e` in position `e`, and each record's keys are exactly the
`train_`-prefixed statistic keys followed by `epoch`. -/
theorem log_record_shape (env : Env) (config : Config) (n : ℕ)
    (h1 : env.isMain = true) (h2 : config.output_dir ≠ "")
    (h3 : env.supported config.model_name = true)
    (h4 : config.start_epoch = 0) (h5 : config.train.epochs = n) :
    logAppends (mainRun env config).events =
      (List.range n).map (fun e => logRecord (env.trainStats e) e) ∧
    ∀ (stats : List (String × ℚ)) (e : ℕ),
      (logRecord stats e).map Prod.fst =
        stats.map (fun p => "train_" ++ p.1) ++ ["epoch"] := by
  constructor
  · rw [mainRun_events_main env config h1 h2 h3]
    simp only [logAppends_append, logAppends_runEpochs_some, h1,
      apply_ite logAppends]
    simp [logAppends, h4, h5, List.range_eq_range']
  · intro stats e
    simp [logRecord, Function.comp]

/-- Witness for C8: a concrete two-epoch run appends the two expected log
records. -/
theorem log_record_shape_witness :
    logAppends (mainRun envW cfg2).events =
      (List.range 2).map (fun e => logRecord (envW.trainStats e) e) ∧
    ∀ (stats : List (String × ℚ)) (e : ℕ),
      (logRecord stats e).map Prod.fst =
        stats.map (fun p => "train_" ++ p.1) ++ ["epoch"] :=
  log_record_shape envW cfg2 2 rfl (by decide) (by decide) rfl rfl

/-- Claim C9: in an epoch in which the main process writes, the
monitoring stream is flushed exactly once and strictly before the
structured log line is appended: the epoch body's monitoring/log events
are exactly `[flush, append]` in that order. -/
theorem flush_before_log (env : Env) (config : Config) (d w : String)
    (e : ℕ) (hm : env.isMain = true) :
    (epochBody env config (some d) (some w) e).filter isMonLogEvent =
      [Event.flushWriter,
       Event.appendLog (d ++ "/log.txt") (logRecord (env.trainStats e) e)] := by
  unfold epochBody
  by_cases hd : config.ddp.distributed <;>
    by_cases hc : e % 20 = 0 ∨ e + 1 = config.train.epochs <;>
    simp [hd, hm, hc, isMonLogEvent]

/-- Witness for C9 at a concrete epoch. -/
theorem flush_before_log_witness :
    (epochBody envW cfgW (some "out/exp1") (some "out/exp1") 0).filter
        isMonLogEvent =
      [Event.flushWriter,
       Event.appendLog ("out/exp1" ++ "/log.txt")
         (logRecord (envW.trainStats 0) 0)] :=
  flush_before_log envW cfgW "out/exp1" "out/exp1" 0 rfl

/-- Claim C10: `main` mutates the configuration in exactly one place —
when `train.lr` is set the configuration comes back unchanged, and in
every case all entries other than `train.lr` are unchanged. -/
theorem config_single_mutation (env : Env) (config : Config) :
    (config.train.lr ≠ none → (mainRun env config).config = config) ∧
    (mainRun env config).config.ddp = config.ddp ∧
    (mainRun env config).config.device = config.device ∧
    (mainRun env config).config.seed = config.seed ∧
    (mainRun env config).config.model_name = config.model_name ∧
    (mainRun env config).config.output_dir = config.output_dir ∧
    (mainRun env config).config.exp_name = config.exp_name ∧
    (mainRun env config).config.resume = config.resume ∧
    (mainRun env config).config.start_epoch = config.start_epoch ∧
    (mainRun env config).config.dataloader = config.dataloader ∧
    (mainRun env config).config.train.blr = config.train.blr ∧
    (mainRun env config).config.train.accum_iter = config.train.accum_iter ∧
    (mainRun env config).config.train.epochs = config.train.epochs := by
  constructor
  · intro hlr
    rcases hx : config.train.lr with _ | x
    · exact absurd hx hlr
    · by_cases h : env.supported config.model_name = true
      · rw [mainRun_config_supported env config h, deriveLr_of_some _ _ x hx]
      · rw [mainRun_config_unsupported env config (by simpa using h)]
  · by_cases h : env.supported config.model_name = true
    · rw [mainRun_config_supported env config h]
      simp [deriveLr_blr, deriveLr_accum_iter, deriveLr_epochs]
    · rw [mainRun_config_unsupported env config (by simpa using h)]
      simp

/-- Witness for C10: a configuration with `train.lr` set comes back from
`main` unchanged. -/
theorem config_single_mutation_witness :
    (mainRun envW cfgLr).config = cfgLr :=
  (config_single_mutation envW cfgLr).1 (by simp [cfgLr])
